import Mathlib

/-!
Shallow embedding of `aws_emr_launch/control_plane/lambda_sources/apis/get_list_apis.py`.

The module exposes six AWS Lambda handlers (list + get for each of the three
resource categories Profiles, Configurations, Functions) over the SSM parameter
store.  The SSM client (`boto3.client('ssm')`) and the JSON decoder
(`json.loads`) are external collaborators: they are modelled as explicit
parameters (`SSMClient`, `loads`), so every handler is a pure function of the
backend's behaviour.  Python exceptions are modelled with `Except PyError`.
-/

/-- Python exception universe used by the handlers.  `clientError code` models a
`botocore.exceptions.ClientError` whose `e.response['Error']['Code']` is `code`;
the three not-found constructors model the module's own exception classes
`EMRProfileNotFoundError`, `ClusterConfigurationNotFoundError` and
`EMRLaunchFunctionNotFoundError` (each carrying its message string);
`otherError` covers every other `Exception` (e.g. a `json.loads` failure). -/
inductive PyError : Type where
  | clientError (code : String)
  | emrProfileNotFoundError (msg : String)
  | clusterConfigurationNotFoundError (msg : String)
  | emrLaunchFunctionNotFoundError (msg : String)
  | otherError (msg : String)
  deriving DecidableEq, Repr

/-- One reply of `ssm.get_parameters_by_path`: `Parameters` is the list of the
returned parameters' `Value` fields (raw JSON text), in backend order;
`NextToken` is present exactly when the reply mapping contains a
`'NextToken'` key. -/
structure SSMPage : Type where
  Parameters : List String
  NextToken : Option String
  deriving DecidableEq, Repr

/-- The boto3 SSM client, restricted to the two operations the module calls.
`get_parameters_by_path` receives the `Path` argument and the optional
`NextToken` argument (`none` when the key is omitted from the call);
`get_parameter` receives the `Name` argument and returns the parameter's
`Value` field. -/
structure SSMClient : Type where
  get_parameters_by_path : String → Option String → Except PyError SSMPage
  get_parameter : String → Except PyError String

/-- The result mapping of `_get_parameter_values`: exactly one collection entry
`top_level_return ↦ items`, plus a `NextToken` entry present iff
`NextToken ≠ none`. -/
structure ListResult (J : Type) : Type where
  top_level_return : String
  items : List J
  NextToken : Option String
  deriving DecidableEq, Repr

/-- A Lambda event mapping, restricted to the keys the six handlers read with
`event.get`; a `none` field models absence of the key. -/
structure Event : Type where
  Namespace : Option String
  NextToken : Option String
  ProfileName : Option String
  ConfigurationName : Option String
  FunctionName : Option String
  deriving DecidableEq, Repr

/-- Python truthiness of an `Optional[str]`: `None` and `''` are falsy, every
other string is truthy.  This is the test `if next_token:` performs. -/
def pyTruthy : Option String → Bool
  | none => false
  | some s => !s.isEmpty

/-- The `NextToken` argument actually included in the `get_parameters_by_path`
call: the source adds `params['NextToken'] = next_token` only when
`next_token` is truthy. -/
def pyTokenParam (next_token : Option String) : Option String :=
  if pyTruthy next_token then next_token else none

/-- Source constant `PROFILES_SSM_PARAMETER_PREFIX`. -/
def PROFILES_SSM_PARAMETER_ROOT : String := "/emr_launch/emr_profiles"

/-- Source constant `CONFIGURATIONS_SSM_PARAMETER_PREFIX`. -/
def CONFIGURATIONS_SSM_PARAMETER_ROOT : String := "/emr_launch/cluster_configurations"

/-- Source constant `FUNCTIONS_SSM_PARAMETER_PREFIX`. -/
def FUNCTIONS_SSM_PARAMETER_ROOT : String := "/emr_launch/emr_launch_functions"

/-- Spec component `AddressResolver.pathForList`: the `Path` f-string
`f'{ssm_parameter_prefix}/{namespace}/'` built in `_get_parameter_values`. -/
def pathForList (root nspace : String) : String :=
  root ++ "/" ++ nspace ++ "/"

/-- Spec component `AddressResolver.pathForItem`: the `Name` f-string
`f'{ssm_parameter_prefix}/{namespace}/{name}'` built in `_get_parameter_value`. -/
def pathForItem (root nspace name : String) : String :=
  root ++ "/" ++ nspace ++ "/" ++ name

/-- Embedding of `_get_parameter_values(ssm_parameter_prefix, top_level_return,
namespace='default', next_token=None)`.  `loads` models `json.loads`; a raised
exception anywhere in the body is the `Except.error` of the whole call.  The
Python defaults are always supplied explicitly by the callers below. -/
def _get_parameter_values {J : Type} (ssm : SSMClient) (loads : String → Except PyError J)
    (root top_level_return nspace : String) (next_token : Option String) :
    Except PyError (ListResult J) := do
  let result ← ssm.get_parameters_by_path (root ++ "/" ++ nspace ++ "/") (pyTokenParam next_token)
  let items ← result.Parameters.mapM loads
  pure { top_level_return := top_level_return, items := items, NextToken := result.NextToken }

/-- Embedding of `_get_parameter_value(ssm_parameter_prefix, name,
namespace='default')`: one exact-key `get_parameter` call followed by
`json.loads` of the returned `Value`. -/
def _get_parameter_value {J : Type} (ssm : SSMClient) (loads : String → Except PyError J)
    (root name nspace : String) : Except PyError J := do
  let configuration_json ← ssm.get_parameter (root ++ "/" ++ nspace ++ "/" ++ name)
  loads configuration_json

/-- Embedding of `get_profiles_handler`: the `except Exception` clause logs and
re-raises the same exception, so the handler is exactly the inner call. -/
def get_profiles_handler {J : Type} (ssm : SSMClient) (loads : String → Except PyError J)
    (event : Event) (_context : Unit) : Except PyError (ListResult J) :=
  let nspace := event.Namespace.getD "default"
  let next_token := event.NextToken
  _get_parameter_values ssm loads PROFILES_SSM_PARAMETER_ROOT "EMRProfiles" nspace next_token

/-- Embedding of `get_profile_handler`: a `ClientError` with code
`ParameterNotFound` is translated into `EMRProfileNotFoundError`; every other
exception is logged and re-raised unchanged. -/
def get_profile_handler {J : Type} (ssm : SSMClient) (loads : String → Except PyError J)
    (event : Event) (_context : Unit) : Except PyError J :=
  let profile_name := event.ProfileName.getD ""
  let nspace := event.Namespace.getD "default"
  match _get_parameter_value ssm loads PROFILES_SSM_PARAMETER_ROOT profile_name nspace with
  | Except.ok v => Except.ok v
  | Except.error (PyError.clientError code) =>
    if code = "ParameterNotFound" then
      Except.error (PyError.emrProfileNotFoundError
        ("ProfileNotFound: " ++ nspace ++ "/" ++ profile_name))
    else
      Except.error (PyError.clientError code)
  | Except.error e => Except.error e

/-- Embedding of `get_configurations_handler`. -/
def get_configurations_handler {J : Type} (ssm : SSMClient) (loads : String → Except PyError J)
    (event : Event) (_context : Unit) : Except PyError (ListResult J) :=
  let nspace := event.Namespace.getD "default"
  let next_token := event.NextToken
  _get_parameter_values ssm loads CONFIGURATIONS_SSM_PARAMETER_ROOT "ClusterConfigurations"
    nspace next_token

/-- Embedding of `get_configuration_handler`.  NOTE: the source raises
`EMRProfileNotFoundError` (not `ClusterConfigurationNotFoundError`) here, with
message `f'ConfigurationNotFound: {namespace}/{configuration_name}'`; the
embedding reproduces this faithfully. -/
def get_configuration_handler {J : Type} (ssm : SSMClient) (loads : String → Except PyError J)
    (event : Event) (_context : Unit) : Except PyError J :=
  let configuration_name := event.ConfigurationName.getD ""
  let nspace := event.Namespace.getD "default"
  match _get_parameter_value ssm loads CONFIGURATIONS_SSM_PARAMETER_ROOT configuration_name nspace with
  | Except.ok v => Except.ok v
  | Except.error (PyError.clientError code) =>
    if code = "ParameterNotFound" then
      Except.error (PyError.emrProfileNotFoundError
        ("ConfigurationNotFound: " ++ nspace ++ "/" ++ configuration_name))
    else
      Except.error (PyError.clientError code)
  | Except.error e => Except.error e

/-- Embedding of `get_functions_handler`. -/
def get_functions_handler {J : Type} (ssm : SSMClient) (loads : String → Except PyError J)
    (event : Event) (_context : Unit) : Except PyError (ListResult J) :=
  let nspace := event.Namespace.getD "default"
  let next_token := event.NextToken
  _get_parameter_values ssm loads FUNCTIONS_SSM_PARAMETER_ROOT "EMRLaunchFunctions"
    nspace next_token

/-- Embedding of `get_function_handler`.  NOTE: as in the configuration case the
source raises `EMRProfileNotFoundError` (not `EMRLaunchFunctionNotFoundError`),
with message `f'FunctionNotFound: {namespace}/{function_name}'`. -/
def get_function_handler {J : Type} (ssm : SSMClient) (loads : String → Except PyError J)
    (event : Event) (_context : Unit) : Except PyError J :=
  let function_name := event.FunctionName.getD ""
  let nspace := event.Namespace.getD "default"
  match _get_parameter_value ssm loads FUNCTIONS_SSM_PARAMETER_ROOT function_name nspace with
  | Except.ok v => Except.ok v
  | Except.error (PyError.clientError code) =>
    if code = "ParameterNotFound" then
      Except.error (PyError.emrProfileNotFoundError
        ("FunctionNotFound: " ++ nspace ++ "/" ++ function_name))
    else
      Except.error (PyError.clientError code)
  | Except.error e => Except.error e

/-- Claim C2 counterexample: the spec's literal backend key prefixes do not
match the module's constants — in particular the Profile constant is not
`/config/profiles` (nor are the other two the spec's strings). -/
theorem spec_literal_roots_wrong :
    ¬ (PROFILES_SSM_PARAMETER_ROOT = "/config/profiles" ∧
       CONFIGURATIONS_SSM_PARAMETER_ROOT = "/config/cluster-configurations" ∧
       FUNCTIONS_SSM_PARAMETER_ROOT = "/config/launch-functions") := by
  decide

/-- Claim C2 (amended): the three fixed, process-wide backend key prefix
constants are `/emr_launch/emr_profiles` for Profile,
`/emr_launch/cluster_configurations` for Configuration and
`/emr_launch/emr_launch_functions` for Function. -/
theorem ssm_parameter_roots_values :
    PROFILES_SSM_PARAMETER_ROOT = "/emr_launch/emr_profiles" ∧
    CONFIGURATIONS_SSM_PARAMETER_ROOT = "/emr_launch/cluster_configurations" ∧
    FUNCTIONS_SSM_PARAMETER_ROOT = "/emr_launch/emr_launch_functions" :=
  ⟨rfl, rfl, rfl⟩

/-- Boolean prefix test on character lists, used to model the backend's
prefix-scoped matching of `get_parameters_by_path` (spec §6: the query returns
the entries whose key extends the supplied path). -/
def charsLead : List Char → List Char → Bool
  | [], _ => true
  | _ :: _, [] => false
  | a :: xs, b :: ys => a == b && charsLead xs ys

/-- A stored key matches a prefix query iff the query path leads the key,
character by character. -/
def keyMatchesQuery (path key : String) : Bool :=
  charsLead path.data key.data

/-- Classifier for the module's three domain-specific not-found exception
classes. -/
def isNotFoundError : PyError → Bool
  | PyError.emrProfileNotFoundError _ => true
  | PyError.clusterConfigurationNotFoundError _ => true
  | PyError.emrLaunchFunctionNotFoundError _ => true
  | _ => false

/-- A handler outcome counts as a not-found outcome iff it raises one of the
three domain-specific not-found exception classes. -/
def isNotFoundOutcome {α : Type} : Except PyError α → Bool
  | Except.error e => isNotFoundError e
  | Except.ok _ => false

/-- The `NextToken` entry of a successful list response (`none` when the call
raised). -/
def resultToken {J : Type} : Except PyError (ListResult J) → Option (Option String)
  | Except.ok r => some r.NextToken
  | Except.error _ => none

/-- SSM stub that answers every query with the same page and every exact-key
fetch with the same raw value. -/
def okClient (page : SSMPage) (raw : String) : SSMClient :=
  { get_parameters_by_path := fun _ _ => Except.ok page
    get_parameter := fun _ => Except.ok raw }

/-- SSM stub that fails every call with the same exception. -/
def errClient (e : PyError) : SSMClient :=
  { get_parameters_by_path := fun _ _ => Except.error e
    get_parameter := fun _ => Except.error e }

/-- Decoder stub: a total `json.loads` model that returns the raw text itself. -/
def idLoads : String → Except PyError String := fun s => Except.ok s

/-- Event with every key absent. -/
def emptyEvent : Event := ⟨none, none, none, none, none⟩

theorem except_error_bind {ε α β : Type} (e : ε) (f : α → Except ε β) :
    (Except.error e >>= f) = Except.error e := rfl

theorem except_ok_bind {ε α β : Type} (a : α) (f : α → Except ε β) :
    (Except.ok a >>= f) = f a := rfl

theorem except_pure_eq_ok {ε α : Type} (a : α) : (pure a : Except ε α) = Except.ok a := rfl

/-- Unfolding of `_get_parameter_values` as one backend query on
`pathForList root ns` followed by an in-order decode of the returned values. -/
theorem gpv_eq {J : Type} (ssm : SSMClient) (loads : String → Except PyError J)
    (root k ns : String) (tok : Option String) :
    _get_parameter_values ssm loads root k ns tok =
      (ssm.get_parameters_by_path (pathForList root ns) (pyTokenParam tok) >>= fun r =>
        (r.Parameters.mapM loads >>= fun items =>
          Except.ok ⟨k, items, r.NextToken⟩)) := rfl

/-- Unfolding of `_get_parameter_value` as one exact-key fetch on
`pathForItem root ns name` followed by a decode. -/
theorem gp_eq {J : Type} (ssm : SSMClient) (loads : String → Except PyError J)
    (root name ns : String) :
    _get_parameter_value ssm loads root name ns =
      (ssm.get_parameter (pathForItem root ns name) >>= loads) := rfl

/-- A failing monadic map over `Except` pinpoints a failing element. -/
theorem except_mapM_error_mem {J : Type} (loads : String → Except PyError J)
    (l : List String) :
    ∀ er : PyError, l.mapM loads = Except.error er →
      ∃ s, s ∈ l ∧ loads s = Except.error er := by
  rw [← List.mapM'_eq_mapM]
  induction l with
  | nil =>
    intro er h
    simp [List.mapM', except_pure_eq_ok] at h
  | cons a t ih =>
    intro er h
    simp only [List.mapM'] at h
    cases hf : loads a with
    | error e =>
      rw [hf, except_error_bind] at h
      injection h with h2
      subst h2
      exact ⟨a, List.mem_cons_self a t, hf⟩
    | ok x =>
      rw [hf, except_ok_bind] at h
      cases hm : List.mapM' loads t with
      | error e2 =>
        rw [hm, except_error_bind] at h
        injection h with h2
        subst h2
        obtain ⟨s, hs, hserr⟩ := ih e2 hm
        exact ⟨s, List.mem_cons_of_mem a hs, hserr⟩
      | ok xs =>
        rw [hm, except_ok_bind] at h
        rw [except_pure_eq_ok] at h
        cases h

/-- A successful monadic map over `Except` returns one output per input. -/
theorem except_mapM_ok_length {J : Type} (loads : String → Except PyError J)
    (l : List String) :
    ∀ items : List J, l.mapM loads = Except.ok items → items.length = l.length := by
  rw [← List.mapM'_eq_mapM]
  induction l with
  | nil =>
    intro items h
    simp only [List.mapM', except_pure_eq_ok] at h
    injection h with h2
    subst h2
    rfl
  | cons a t ih =>
    intro items h
    simp only [List.mapM'] at h
    cases hf : loads a with
    | error e =>
      rw [hf, except_error_bind] at h
      cases h
    | ok x =>
      rw [hf, except_ok_bind] at h
      cases hm : List.mapM' loads t with
      | error e2 =>
        rw [hm, except_error_bind] at h
        cases h
      | ok xs =>
        rw [hm, except_ok_bind, except_pure_eq_ok] at h
        injection h with h2
        subst h2
        simpa using ih xs hm

/-- Leading a list with a shared left part reduces to leading the tails. -/
theorem charsLead_append_left (xs ys zs : List Char) :
    charsLead (xs ++ ys) (xs ++ zs) = charsLead ys zs := by
  induction xs with
  | nil => rfl
  | cons a t ih => simp [charsLead, ih]

/-- Core separation fact behind the trailing separator: if a slash-free segment
followed by `/` leads another slash-free segment followed by `/` and anything
else, the two segments coincide. -/
theorem charsLead_slash_segment (ns₁ : List Char) :
    ∀ (ns₂ rest : List Char), '/' ∉ ns₁ → '/' ∉ ns₂ →
      charsLead (ns₁ ++ ['/']) (ns₂ ++ '/' :: rest) = true → ns₁ = ns₂ := by
  induction ns₁ with
  | nil =>
    intro ns₂ rest h₁ h₂ h
    cases ns₂ with
    | nil => rfl
    | cons b t =>
      simp [charsLead] at h
      exact absurd (h ▸ List.mem_cons_self b t) h₂
  | cons a t ih =>
    intro ns₂ rest h₁ h₂ h
    cases ns₂ with
    | nil =>
      simp [charsLead] at h
      exact absurd (by simp [h.1]) h₁
    | cons b t₂ =>
      simp only [List.cons_append, charsLead, Bool.and_eq_true, beq_iff_eq] at h
      obtain ⟨hab, hlead⟩ := h
      subst hab
      have ht := ih t₂ rest (fun hm => h₁ (List.mem_cons_of_mem _ hm))
        (fun hm => h₂ (List.mem_cons_of_mem _ hm)) hlead
      rw [ht]

theorem slash_data : ("/" : String).data = ['/'] := rfl

/-- String-level separation: a slash-free namespace's list path only leads keys
of the same namespace. -/
theorem keyMatchesQuery_scopes (p ns₁ ns₂ nm : String)
    (h₁ : '/' ∉ ns₁.data) (h₂ : '/' ∉ ns₂.data)
    (h : keyMatchesQuery (pathForList p ns₁) (pathForItem p ns₂ nm) = true) :
    ns₁ = ns₂ := by
  have e₁ : (pathForList p ns₁).data = (p.data ++ ['/']) ++ (ns₁.data ++ ['/']) := by
    simp [pathForList, String.data_append, slash_data, List.append_assoc]
  have e₂ : (pathForItem p ns₂ nm).data = (p.data ++ ['/']) ++ (ns₂.data ++ ('/' :: nm.data)) := by
    simp [pathForItem, String.data_append, slash_data, List.append_assoc]
  simp only [keyMatchesQuery] at h
  rw [e₁, e₂, charsLead_append_left] at h
  have hd := charsLead_slash_segment ns₁.data ns₂.data nm.data h₁ h₂ h
  exact String.ext hd

/-- Claim C1: the code contradicts the claim — on the backend's
`ParameterNotFound` condition, `get_configuration_handler` and
`get_function_handler` raise `EMRProfileNotFoundError` instead of their own
category's not-found error class (the message does carry namespace and name). -/
theorem get_handlers_raise_profile_error_for_all_categories :
    get_configuration_handler (errClient (PyError.clientError "ParameterNotFound")) idLoads
        ⟨some "ns", none, none, some "c", none⟩ () =
      Except.error (PyError.emrProfileNotFoundError "ConfigurationNotFound: ns/c") ∧
    get_function_handler (errClient (PyError.clientError "ParameterNotFound")) idLoads
        ⟨some "ns", none, none, none, some "f"⟩ () =
      Except.error (PyError.emrProfileNotFoundError "FunctionNotFound: ns/f") ∧
    get_profile_handler (errClient (PyError.clientError "ParameterNotFound")) idLoads
        ⟨some "ns", none, some "p", none, none⟩ () =
      Except.error (PyError.emrProfileNotFoundError "ProfileNotFound: ns/p") :=
  ⟨rfl, rfl, rfl⟩

/-- Claim C3: the backend path of a list-by-prefix query is exactly
`root ++ "/" ++ namespace ++ "/"` with its trailing separator, and that path
only leads (prefix-matches) keys that live in the same namespace: slash-free
sibling namespaces cannot be confused even when one is a string prefix of the
other. -/
theorem list_path_has_trailing_separator_and_scopes (p ns₁ ns₂ nm k : String)
    (tok : Option String) (ssm : SSMClient) (loads : String → Except PyError String)
    (h₁ : '/' ∉ ns₁.data) (h₂ : '/' ∉ ns₂.data)
    (hmatch : keyMatchesQuery (pathForList p ns₁) (pathForItem p ns₂ nm) = true) :
    pathForList p ns₁ = p ++ "/" ++ ns₁ ++ "/" ∧
    _get_parameter_values ssm loads p k ns₁ tok =
      (ssm.get_parameters_by_path (pathForList p ns₁) (pyTokenParam tok) >>= fun r =>
        (r.Parameters.mapM loads >>= fun items => Except.ok ⟨k, items, r.NextToken⟩)) ∧
    ns₁ = ns₂ :=
  ⟨rfl, gpv_eq ssm loads p k ns₁ tok, keyMatchesQuery_scopes p ns₁ ns₂ nm h₁ h₂ hmatch⟩

/-- Witness for C3 at a concrete instantiation. -/
theorem list_path_scoping_witness :
    pathForList "/p" "d" = "/p" ++ "/" ++ "d" ++ "/" ∧
    _get_parameter_values (okClient ⟨[], none⟩ "doc") idLoads "/p" "K" "d" none =
      ((okClient ⟨[], none⟩ "doc").get_parameters_by_path (pathForList "/p" "d")
          (pyTokenParam none) >>= fun r =>
        (r.Parameters.mapM idLoads >>= fun items => Except.ok ⟨"K", items, r.NextToken⟩)) ∧
    "d" = "d" :=
  list_path_has_trailing_separator_and_scopes "/p" "d" "d" "nm" "K" none
    (okClient ⟨[], none⟩ "doc") idLoads (by decide) (by decide) (by decide)

/-- If neither the backend nor the decoder ever raises one of the module's
not-found classes, neither does `_get_parameter_values`. -/
theorem gpv_not_found_free {J : Type} (ssm : SSMClient) (loads : String → Except PyError J)
    (root k ns : String) (tok : Option String)
    (hssm : ∀ pa t er, ssm.get_parameters_by_path pa t = Except.error er →
      isNotFoundError er = false)
    (hloads : ∀ s er, loads s = Except.error er → isNotFoundError er = false) :
    isNotFoundOutcome (_get_parameter_values ssm loads root k ns tok) = false := by
  rw [gpv_eq]
  cases hq : ssm.get_parameters_by_path (pathForList root ns) (pyTokenParam tok) with
  | error er =>
    rw [except_error_bind]
    exact hssm _ _ er hq
  | ok r =>
    rw [except_ok_bind]
    cases hm : r.Parameters.mapM loads with
    | error er =>
      rw [except_error_bind]
      obtain ⟨s, _, hs⟩ := except_mapM_error_mem loads r.Parameters er hm
      exact hloads s er hs
    | ok items =>
      rw [except_ok_bind]
      rfl

/-- Claim C4: each list handler is exactly the engine call (so any failure of a
list query propagates unchanged, untranslated), no list handler outcome is ever
one of the category not-found errors, and an empty backend page yields a
successful response with an empty collection. -/
theorem list_handlers_error_policy (ssm : SSMClient) (loads : String → Except PyError String)
    (ev : Event) (nt : Option String)
    (hssm : ∀ pa t er, ssm.get_parameters_by_path pa t = Except.error er →
      isNotFoundError er = false)
    (hloads : ∀ s er, loads s = Except.error er → isNotFoundError er = false)
    (hempty : ssm.get_parameters_by_path
        (pathForList PROFILES_SSM_PARAMETER_ROOT (ev.Namespace.getD "default"))
        (pyTokenParam ev.NextToken) = Except.ok ⟨[], nt⟩) :
    (get_profiles_handler ssm loads ev () =
        _get_parameter_values ssm loads PROFILES_SSM_PARAMETER_ROOT "EMRProfiles"
          (ev.Namespace.getD "default") ev.NextToken ∧
      get_configurations_handler ssm loads ev () =
        _get_parameter_values ssm loads CONFIGURATIONS_SSM_PARAMETER_ROOT "ClusterConfigurations"
          (ev.Namespace.getD "default") ev.NextToken ∧
      get_functions_handler ssm loads ev () =
        _get_parameter_values ssm loads FUNCTIONS_SSM_PARAMETER_ROOT "EMRLaunchFunctions"
          (ev.Namespace.getD "default") ev.NextToken) ∧
    (isNotFoundOutcome (get_profiles_handler ssm loads ev ()) = false ∧
      isNotFoundOutcome (get_configurations_handler ssm loads ev ()) = false ∧
      isNotFoundOutcome (get_functions_handler ssm loads ev ()) = false) ∧
    get_profiles_handler ssm loads ev () =
      Except.ok ⟨"EMRProfiles", ([] : List String), nt⟩ := by
  refine ⟨⟨rfl, rfl, rfl⟩,
    ⟨gpv_not_found_free ssm loads _ _ _ _ hssm hloads,
     gpv_not_found_free ssm loads _ _ _ _ hssm hloads,
     gpv_not_found_free ssm loads _ _ _ _ hssm hloads⟩, ?_⟩
  show _get_parameter_values ssm loads PROFILES_SSM_PARAMETER_ROOT "EMRProfiles"
      (ev.Namespace.getD "default") ev.NextToken =
    Except.ok ⟨"EMRProfiles", ([] : List String), nt⟩
  rw [gpv_eq, hempty, except_ok_bind]
  rw [show (⟨[], nt⟩ : SSMPage).Parameters = ([] : List String) from rfl, List.mapM_nil,
    except_pure_eq_ok, except_ok_bind]

/-- Witness for C4 at a concrete instantiation. -/
theorem list_handlers_error_policy_witness :
    isNotFoundOutcome (get_configurations_handler (okClient ⟨[], none⟩ "doc") idLoads
      emptyEvent ()) = false ∧
    get_profiles_handler (okClient ⟨[], none⟩ "doc") idLoads emptyEvent () =
      Except.ok ⟨"EMRProfiles", ([] : List String), none⟩ := by
  have h := list_handlers_error_policy (okClient ⟨[], none⟩ "doc") idLoads emptyEvent none
    (fun _ _ _ h => nomatch h) (fun _ _ h => nomatch h) rfl
  exact ⟨h.2.1.2.1, h.2.2⟩

/-- Claim C5: the list response carries a `NextToken` entry exactly when the
backend page does, and it is the backend's token unaltered. -/
theorem list_next_token_passthrough {J : Type} (ssm : SSMClient)
    (loads : String → Except PyError J) (root k ns : String) (tok : Option String)
    (page : SSMPage) (items : List J)
    (hq : ssm.get_parameters_by_path (pathForList root ns) (pyTokenParam tok) = Except.ok page)
    (hd : page.Parameters.mapM loads = Except.ok items) :
    resultToken (_get_parameter_values ssm loads root k ns tok) = some page.NextToken := by
  rw [gpv_eq, hq, except_ok_bind, hd, except_ok_bind]
  rfl

/-- Witness for C5 at a concrete instantiation. -/
theorem list_next_token_passthrough_witness :
    resultToken (_get_parameter_values (okClient ⟨["a"], some "tk"⟩ "doc") idLoads
      "/p" "K" "d" none) = some (some "tk") :=
  list_next_token_passthrough (okClient ⟨["a"], some "tk"⟩ "doc") idLoads
    "/p" "K" "d" none ⟨["a"], some "tk"⟩ ["a"] rfl rfl

/-- Claim C6: when the request has no `Namespace` key, every one of the six
handlers behaves exactly as if `Namespace` were the string `"default"`. -/
theorem namespace_defaults_across_handlers (ssm : SSMClient)
    (loads : String → Except PyError String) (ev : Event) (hns : ev.Namespace = none) :
    get_profiles_handler ssm loads ev () =
      get_profiles_handler ssm loads { ev with Namespace := some "default" } () ∧
    get_profile_handler ssm loads ev () =
      get_profile_handler ssm loads { ev with Namespace := some "default" } () ∧
    get_configurations_handler ssm loads ev () =
      get_configurations_handler ssm loads { ev with Namespace := some "default" } () ∧
    get_configuration_handler ssm loads ev () =
      get_configuration_handler ssm loads { ev with Namespace := some "default" } () ∧
    get_functions_handler ssm loads ev () =
      get_functions_handler ssm loads { ev with Namespace := some "default" } () ∧
    get_function_handler ssm loads ev () =
      get_function_handler ssm loads { ev with Namespace := some "default" } () := by
  obtain ⟨nsf, tokf, pf, cf, ff⟩ := ev
  cases nsf with
  | none => exact ⟨rfl, rfl, rfl, rfl, rfl, rfl⟩
  | some s => cases hns

/-- Witness for C6 at a concrete instantiation. -/
theorem namespace_defaults_witness :
    get_profile_handler (okClient ⟨[], none⟩ "doc") idLoads emptyEvent () =
      get_profile_handler (okClient ⟨[], none⟩ "doc") idLoads
        { emptyEvent with Namespace := some "default" } () :=
  (namespace_defaults_across_handlers (okClient ⟨[], none⟩ "doc") idLoads emptyEvent rfl).2.1

/-- Claim C7: a get-style lookup is one exact-key fetch on
`pathForItem root ns nm` whose successful result is the decoded JSON value
itself, not wrapped in any enclosing mapping; the Profile get handler returns
it as-is. -/
theorem get_fetches_exact_key_unwrapped {J : Type} (ssm : SSMClient)
    (loads : String → Except PyError J) (root ns nm raw : String) (v : J)
    (hraw : ssm.get_parameter (pathForItem root ns nm) = Except.ok raw)
    (hv : loads raw = Except.ok v)
    (hraw2 : ssm.get_parameter (pathForItem PROFILES_SSM_PARAMETER_ROOT ns nm) = Except.ok raw) :
    pathForItem root ns nm = root ++ "/" ++ ns ++ "/" ++ nm ∧
    _get_parameter_value ssm loads root nm ns =
      (ssm.get_parameter (pathForItem root ns nm) >>= loads) ∧
    _get_parameter_value ssm loads root nm ns = Except.ok v ∧
    get_profile_handler ssm loads ⟨some ns, none, some nm, none, none⟩ () = Except.ok v := by
  have hval : _get_parameter_value ssm loads PROFILES_SSM_PARAMETER_ROOT nm ns = Except.ok v := by
    rw [gp_eq, hraw2, except_ok_bind, hv]
  refine ⟨rfl, gp_eq ssm loads root nm ns, ?_, ?_⟩
  · rw [gp_eq, hraw, except_ok_bind, hv]
  · simp [get_profile_handler, hval]

/-- Witness for C7 at a concrete instantiation. -/
theorem get_fetches_exact_key_witness :
    get_profile_handler (okClient ⟨[], none⟩ "doc") idLoads
      ⟨some "d", none, some "n", none, none⟩ () = Except.ok "doc" :=
  (get_fetches_exact_key_unwrapped (okClient ⟨[], none⟩ "doc") idLoads
    "/p" "d" "n" "doc" "doc" rfl rfl rfl).2.2.2

/-- Claim C8: every raw backend value of a list query is decoded and returned in
backend order (one output per input, no filtering), under the category's
collection key. -/
theorem list_decodes_in_order {J : Type} (ssm : SSMClient)
    (loads : String → Except PyError J) (ev : Event) (page : SSMPage) (items : List J)
    (hq : ∀ pa t, ssm.get_parameters_by_path pa t = Except.ok page)
    (hd : page.Parameters.mapM loads = Except.ok items) :
    get_profiles_handler ssm loads ev () =
      Except.ok ⟨"EMRProfiles", items, page.NextToken⟩ ∧
    get_configurations_handler ssm loads ev () =
      Except.ok ⟨"ClusterConfigurations", items, page.NextToken⟩ ∧
    get_functions_handler ssm loads ev () =
      Except.ok ⟨"EMRLaunchFunctions", items, page.NextToken⟩ ∧
    items.length = page.Parameters.length := by
  refine ⟨?_, ?_, ?_, except_mapM_ok_length loads page.Parameters items hd⟩
  · show _get_parameter_values ssm loads PROFILES_SSM_PARAMETER_ROOT "EMRProfiles"
        (ev.Namespace.getD "default") ev.NextToken = _
    rw [gpv_eq, hq, except_ok_bind, hd, except_ok_bind]
  · show _get_parameter_values ssm loads CONFIGURATIONS_SSM_PARAMETER_ROOT "ClusterConfigurations"
        (ev.Namespace.getD "default") ev.NextToken = _
    rw [gpv_eq, hq, except_ok_bind, hd, except_ok_bind]
  · show _get_parameter_values ssm loads FUNCTIONS_SSM_PARAMETER_ROOT "EMRLaunchFunctions"
        (ev.Namespace.getD "default") ev.NextToken = _
    rw [gpv_eq, hq, except_ok_bind, hd, except_ok_bind]

/-- Witness for C8 at a concrete instantiation. -/
theorem list_decodes_in_order_witness :
    get_profiles_handler (okClient ⟨["a", "b"], some "tk"⟩ "doc") idLoads emptyEvent () =
      Except.ok ⟨"EMRProfiles", ["a", "b"], some "tk"⟩ ∧
    get_configurations_handler (okClient ⟨["a", "b"], some "tk"⟩ "doc") idLoads emptyEvent () =
      Except.ok ⟨"ClusterConfigurations", ["a", "b"], some "tk"⟩ := by
  have h := list_decodes_in_order (okClient ⟨["a", "b"], some "tk"⟩ "doc") idLoads emptyEvent
    ⟨["a", "b"], some "tk"⟩ ["a", "b"] (fun _ _ => rfl) rfl
  exact ⟨h.1, h.2.1⟩

/-- Claim C9: an empty name is not rejected locally — the exact-key fetch uses
the key `root ++ "/" ++ ns ++ "/"` (the empty string as a literal last segment),
and the resulting not-found outcome comes from the backend's
`ParameterNotFound` condition. -/
theorem empty_name_reaches_backend (ssm : SSMClient) (loads : String → Except PyError String)
    (ev : Event) (ns : String)
    (hns : ev.Namespace = some ns) (hpn : ev.ProfileName = some "")
    (hmiss : ssm.get_parameter (pathForItem PROFILES_SSM_PARAMETER_ROOT ns "") =
      Except.error (PyError.clientError "ParameterNotFound")) :
    pathForItem PROFILES_SSM_PARAMETER_ROOT ns "" =
      pathForList PROFILES_SSM_PARAMETER_ROOT ns ∧
    _get_parameter_value ssm loads PROFILES_SSM_PARAMETER_ROOT "" ns =
      (ssm.get_parameter (pathForList PROFILES_SSM_PARAMETER_ROOT ns) >>= loads) ∧
    get_profile_handler ssm loads ev () =
      Except.error (PyError.emrProfileNotFoundError ("ProfileNotFound: " ++ ns ++ "/")) := by
  have hitem : pathForItem PROFILES_SSM_PARAMETER_ROOT ns "" =
      pathForList PROFILES_SSM_PARAMETER_ROOT ns := by
    unfold pathForItem pathForList
    exact String.append_empty _
  refine ⟨hitem, ?_, ?_⟩
  · rw [gp_eq, hitem]
  · obtain ⟨nsf, tokf, pf, cf, ff⟩ := ev
    have hns' : nsf = some ns := hns
    have hpn' : pf = some "" := hpn
    subst hns'
    subst hpn'
    have hval : _get_parameter_value ssm loads PROFILES_SSM_PARAMETER_ROOT "" ns =
        Except.error (PyError.clientError "ParameterNotFound") := by
      rw [gp_eq, hmiss, except_error_bind]
    simp [get_profile_handler, hval, String.append_empty]

/-- Witness for C9 at a concrete instantiation. -/
theorem empty_name_reaches_backend_witness :
    get_profile_handler (errClient (PyError.clientError "ParameterNotFound")) idLoads
        ⟨some "d", none, some "", none, none⟩ () =
      Except.error (PyError.emrProfileNotFoundError ("ProfileNotFound: " ++ "d" ++ "/")) :=
  (empty_name_reaches_backend (errClient (PyError.clientError "ParameterNotFound")) idLoads
    ⟨some "d", none, some "", none, none⟩ "d" rfl rfl rfl).2.2

/-- Claim C10: a falsy continuation token (absent or the empty string) is
omitted from the backend query, so supplying `NextToken = ""` behaves exactly
like supplying no token at all. -/
theorem falsy_token_omitted (ssm : SSMClient) (loads : String → Except PyError String)
    (root k ns : String) (tok : Option String) (ev : Event)
    (htok : pyTruthy tok = false) (hev : ev.NextToken = some "") :
    pyTokenParam tok = none ∧
    _get_parameter_values ssm loads root k ns tok =
      _get_parameter_values ssm loads root k ns none ∧
    get_profiles_handler ssm loads ev () =
      get_profiles_handler ssm loads { ev with NextToken := none } () := by
  have h1 : pyTokenParam tok = none := by
    simp [pyTokenParam, htok]
  refine ⟨h1, ?_, ?_⟩
  · rw [gpv_eq, gpv_eq, h1]
    rfl
  · obtain ⟨nsf, tokf, pf, cf, ff⟩ := ev
    have hev' : tokf = some "" := hev
    subst hev'
    show _get_parameter_values ssm loads PROFILES_SSM_PARAMETER_ROOT "EMRProfiles"
        (nsf.getD "default") (some "") =
      _get_parameter_values ssm loads PROFILES_SSM_PARAMETER_ROOT "EMRProfiles"
        (nsf.getD "default") none
    rw [gpv_eq, gpv_eq]
    rfl

/-- Witness for C10 at a concrete instantiation. -/
theorem falsy_token_omitted_witness :
    _get_parameter_values (okClient ⟨[], none⟩ "doc") idLoads "/p" "K" "d" (some "") =
      _get_parameter_values (okClient ⟨[], none⟩ "doc") idLoads "/p" "K" "d" none :=
  (falsy_token_omitted (okClient ⟨[], none⟩ "doc") idLoads "/p" "K" "d" (some "")
    ⟨none, some "", none, none, none⟩ (by decide) rfl).2.1
